import Mathlib

/-!
# Verification of the http2tcp GPS-gateway core against its specification

Shallow embedding of the repository's session/protocol layer:

* `app/src/output/gt06/utils.py`    — `crc_itu`, `dev_id_to_bcd`
* `app/src/output/gt06/builder.py`  — packet builders (location, heartbeat,
  login, voltage-info)
* `app/src/output/gt06/mapper.py`   — inbound command decoding
* `app/src/output/utils.py`         — device-id normalization
* `app/src/input/mt02/worker.py`    — timestamp dedupe loop
* `app/src/input/mt02/mapper.py`    — vendor-record mapping, odometer accrual
* `app/src/input/utils.py`          — haversine distance
* `app/src/session/output_session.py` — send path and inbound reader

Bytes are modelled as `Nat` values; `struct.pack` with big-endian unsigned
formats becomes explicit base-256 digit lists.  Python `float` values are
modelled as exact rationals (`Rat`): every IEEE double is a rational, and the
claims under study do not hinge on rounding of double products.  Fallible
Python control flow (raised exceptions) is modelled with `Except PyErr`.
-/

namespace Gateway

/-! ## Byte packing (struct.pack with formats ">B", ">H", ">I", ">Q")

`struct.pack` raises for out-of-range arguments; the encodings below agree
with it on all in-range arguments (the theorems carry range hypotheses where
the byte values matter). -/

/-- `struct.pack(">B", n)` — one big-endian byte. -/
def pack8 (n : Nat) : List Nat := [n % 256]

/-- `struct.pack(">H", n)` — two big-endian bytes. -/
def pack16 (n : Nat) : List Nat := [n / 256 % 256, n % 256]

/-- `struct.pack(">I", n)` — four big-endian bytes. -/
def pack32 (n : Nat) : List Nat :=
  [n / 256 ^ 3 % 256, n / 256 ^ 2 % 256, n / 256 % 256, n % 256]

/-- `struct.pack(">Q", n)` — eight big-endian bytes. -/
def pack64 (n : Nat) : List Nat :=
  [n / 256 ^ 7 % 256, n / 256 ^ 6 % 256, n / 256 ^ 5 % 256, n / 256 ^ 4 % 256,
   n / 256 ^ 3 % 256, n / 256 ^ 2 % 256, n / 256 % 256, n % 256]

/-! ## CRC (gt06/utils.py, `crc_itu`)

The source delegates to the `crc` library with
`Configuration(width=16, polynomial=0x1021, init_value=0xFFFF,
final_xor_value=0xFFFF, reverse_input=True, reverse_output=True)`,
i.e. CRC-16/X25.  With both input and output reflected this is the standard
right-shifting algorithm over the bit-reversed polynomial `0x8408`. -/

/-- One bit step of the reflected CRC-16/X25: shift right, conditionally
XORing in the reversed polynomial `0x8408`. -/
def crcBitStep (c : Nat) : Nat :=
  if c % 2 = 1 then (c / 2) ^^^ 0x8408 else c / 2

/-- One byte step: XOR the byte into the low bits, then eight bit steps. -/
def crcByteStep (c : Nat) (b : Nat) : Nat :=
  crcBitStep (crcBitStep (crcBitStep (crcBitStep
    (crcBitStep (crcBitStep (crcBitStep (crcBitStep (c ^^^ b % 256))))))))

/-- `crc_itu(data_bytes)`: CRC-16/X25 of a byte list (init `0xFFFF`,
final XOR `0xFFFF`). -/
def crc_itu (data : List Nat) : Nat :=
  (data.foldl crcByteStep 0xFFFF) ^^^ 0xFFFF

/-! ## Python numeric helpers -/

/-- Python `int()` applied to a float (here: exact rational): truncation
toward zero. -/
def pyInt (q : Rat) : Int := if 0 ≤ q then q.floor else -((-q).floor)

/-! ## GT06 packet builders (gt06/builder.py)

`packet_data` dictionaries become the `PacketData` record; each field holds
the value after the source's `.get(...)` defaulting, with Python floats as
exact rationals and the timestamp already split into its six components (the
source immediately dissects the `datetime` into year..second). -/

/-- The `packet_data` dictionary consumed by `build_location_packet`. -/
structure PacketData where
  year : Nat
  month : Nat
  day : Nat
  hour : Nat
  minute : Nat
  second : Nat
  satellites : Nat
  latitude : Rat
  longitude : Rat
  speed_kmh : Nat
  direction : Nat
  gps_fixed : Bool
  acc_status : Bool
  gps_odometer : Nat
  voltage : Rat

/-- The `content_body` accumulated by `build_location_packet` (builder.py
lines 44–169): the fixed prefix (time, gps info, coordinates, speed, course)
followed by the per-protocol suffix.  `cell_id.to_bytes(3, "big")` becomes an
explicit 3-byte big-endian encoding. -/
def location_content_body (packet_data : PacketData) (protocol_number : Nat) :
    List Nat :=
  let time_bytes :=
    pack8 (packet_data.year % 100) ++ pack8 packet_data.month ++
    pack8 packet_data.day ++ pack8 packet_data.hour ++
    pack8 packet_data.minute ++ pack8 packet_data.second
  let satellites := min 15 packet_data.satellites
  let gps_info := 0xC0 ||| satellites
  let gps_info_byte := pack8 gps_info
  let lat_raw := (pyInt (|packet_data.latitude| * 1800000)).toNat
  let lon_raw := (pyInt (|packet_data.longitude| * 1800000)).toNat
  let lat_lon_bytes := pack32 lat_raw ++ pack32 lon_raw
  let speed_kmh_bytes := pack8 packet_data.speed_kmh
  let direction := packet_data.direction &&& 0x03FF
  let gps_fixed := if packet_data.gps_fixed then 1 else 0
  let is_latitude_north := if 0 ≤ packet_data.latitude then 1 else 0
  let is_longitude_west := if packet_data.longitude < 0 then 1 else 0
  let course_status :=
    (gps_fixed <<< 12) ||| (is_longitude_west <<< 11) |||
    (is_latitude_north <<< 10) ||| direction
  let course_status_bytes := pack16 course_status
  let content_start :=
    time_bytes ++ gps_info_byte ++ lat_lon_bytes ++ speed_kmh_bytes ++
    course_status_bytes
  let acc_status := if packet_data.acc_status then 1 else 0
  let gps_odometer := packet_data.gps_odometer
  let voltage_raw := (pyInt (packet_data.voltage * 100)).toNat
  let mcc := 0
  let mnc := 0
  let lac := 0
  let cell_id := 0
  let content_body :=
    if protocol_number = 0x12 then
      content_start ++ pack16 mcc ++ pack8 mnc ++ pack16 lac ++
      [cell_id / 256 ^ 2 % 256, cell_id / 256 % 256, cell_id % 256]
    else if protocol_number = 0x22 then
      content_start ++ pack16 mcc ++ pack8 mnc ++ pack16 lac ++
      [cell_id / 256 ^ 2 % 256, cell_id / 256 % 256, cell_id % 256] ++
      pack8 acc_status ++ [0x00] ++ [0x00] ++ pack32 gps_odometer
    else if protocol_number = 0x32 then
      content_start ++ pack16 mcc ++ pack8 mnc ++ pack16 lac ++
      pack32 cell_id ++
      pack8 acc_status ++ [0x00] ++ [0x00] ++ pack32 gps_odometer ++
      pack16 voltage_raw ++ [0x00, 0x00, 0x00, 0x00, 0x00, 0x00]
    else if protocol_number = 0xA0 then
      content_start ++ pack16 mcc ++ pack16 mnc ++ pack32 lac ++
      pack64 cell_id ++
      pack8 acc_status ++ [0x00] ++ [0x00] ++ pack32 gps_odometer ++
      pack16 voltage_raw
    else content_start
  content_body

/-- `build_location_packet` (builder.py lines 11–195).  `protocol_number`
stands for `settings.GT06_LOCATION_PACKET_PROTOCOL_NUMBER` (0x12, 0x22, 0x32
or 0xA0; default 0xA0). -/
def build_location_packet (packet_data : PacketData) (protocol_number : Nat)
    (serial_number : Nat) : List Nat :=
  let content_body := location_content_body packet_data protocol_number
  let length_value := 1 + content_body.length + 2 + 2
  let length_byte := pack8 length_value
  let data_for_crc :=
    length_byte ++ pack8 protocol_number ++ content_body ++
    pack16 serial_number
  [0x78, 0x78] ++ data_for_crc ++ pack16 (crc_itu data_for_crc) ++ [0x0D, 0x0A]

/-- `build_heartbeat_packet` (builder.py lines 236–282).  All fields are
constants in the source (`acc_status = 1`, `last_output_status = 0`,
`serial = 0`), so the frame is a constant. -/
def build_heartbeat_packet : List Nat :=
  let protocol_number := pack8 0x13
  let acc_status := 1
  let last_output_status := 0
  let terminal_info_content :=
    (last_output_status <<< 7) ||| (1 <<< 6) ||| (1 <<< 2) |||
    (acc_status <<< 1) ||| 1
  let terminal_info_content_bytes := pack8 terminal_info_content
  let voltage_level := pack8 6
  let gsm_signal_strenght := pack8 0x04
  let alarm := pack8 0x00
  let language := pack8 0x02
  let serial := pack16 0
  let data_for_crc :=
    protocol_number ++ terminal_info_content_bytes ++ voltage_level ++
    gsm_signal_strenght ++ alarm ++ language ++ serial
  let packet_lenght := data_for_crc.length
  let framed := pack8 packet_lenght ++ data_for_crc
  [0x78, 0x78] ++ framed ++ pack16 (crc_itu framed) ++ [0x0D, 0x0A]

/-! ## Device-id helpers (output/utils.py, gt06/utils.py) -/

/-- Python `str.zfill(20)` for sign-free strings: left-pad with `'0'` to
20 characters. -/
def zfill20 (s : String) : String :=
  String.mk (List.replicate (20 - s.length) '0') ++ s

/-- `normalize_dev_id` (output/utils.py lines 1–14): zero-fill to 20, then
keep only the digit characters. -/
def normalize_dev_id (dev_id : String) : String :=
  String.mk ((zfill20 dev_id).toList.filter Char.isDigit)

/-- `get_output_dev_id(dev_id, "gt06")` (output/utils.py lines 16–35), gt06
branch: the last 15 characters of the normalized id (Python `s[-15:]`). -/
def get_output_dev_id_gt06 (dev_id : String) : String :=
  let d := normalize_dev_id dev_id
  String.mk (d.toList.drop (d.toList.length - 15))

/-- The validity precondition of `dev_id_to_bcd` (gt06/utils.py line 37):
exactly 15 characters, all decimal digits.  The source raises `ValueError`
otherwise; theorems about the login frame carry this check as a
hypothesis. -/
def dev_id_valid (dev_id : String) : Bool :=
  dev_id.length = 15 && dev_id.toList.all Char.isDigit

/-- Pack successive digit pairs into BCD bytes (high nibble first), as the
loop in `dev_id_to_bcd` does; `int(ch)` on a digit character is its value. -/
def bcdPairs : List Char → List Nat
  | a :: b :: rest => (((a.toNat - 48) <<< 4) ||| (b.toNat - 48)) :: bcdPairs rest
  | _ => []

/-- `dev_id_to_bcd` (gt06/utils.py lines 26–53), valid-input branch: prepend
one `'0'` and BCD-pack the 16 digits into 8 bytes. -/
def dev_id_to_bcd (dev_id : String) : List Nat :=
  bcdPairs ("0" ++ dev_id).toList

/-- The login builder.  Its body sits at builder.py lines 197–233,
unreachable after the `return` of `build_location_packet`, yet registered in
`output_mappers.py` as `gt06.build_login_packet`; the free names `imei` and
`imei_to_bcd` there are read as the device-id argument and
`gt06_utils.dev_id_to_bcd`, which matches the spec's login description
(§4.1).  The `ValueError` branch of `dev_id_to_bcd` is tracked by
`dev_id_valid` hypotheses. -/
def build_login_packet (dev_id : String) (serial_number : Nat) : List Nat :=
  let protocol_number := 0x01
  let output_imei := get_output_dev_id_gt06 dev_id
  let imei_bcd := dev_id_to_bcd output_imei
  let packet_content_for_crc :=
    pack8 protocol_number ++ imei_bcd ++ pack16 serial_number
  let packet_length_value := packet_content_for_crc.length + 2
  let data_for_crc := pack8 packet_length_value ++ packet_content_for_crc
  [0x78, 0x78] ++ data_for_crc ++ pack16 (crc_itu data_for_crc) ++ [0x0D, 0x0A]

/-- `build_voltage_info_packet` (builder.py lines 285–325), frame
construction.  The source function's first statement logs an f-string
referencing names that are not in scope (`dev_id`; `voltage` before its
assignment) and therefore raises `NameError`; that failure — and the caller's
keyword mismatch — are modelled with the session send path below.  This
definition captures the frame computed by lines 293–321, which §9 of the
spec designates as the intended contract.  `voltage` is the value the source
reads from `packet_data.get("voltage", 0.0)`. -/
def build_voltage_info_packet (voltage : Rat) (serial_number : Nat) : List Nat :=
  let protocol_number := 0x94
  let sub_protocol_number := 0x00
  let voltage_raw := (pyInt (voltage * 100)).toNat
  let information_content := pack16 voltage_raw
  let body_packet :=
    pack8 protocol_number ++ pack8 sub_protocol_number ++
    information_content ++ pack16 serial_number
  let packet_length_value := body_packet.length + 2
  let data_for_crc := pack16 packet_length_value ++ body_packet
  [0x79, 0x79] ++ data_for_crc ++ pack16 (crc_itu data_for_crc) ++ [0x0D, 0x0A]

/-! ## Frame anatomy -/

/-- The bytes of a frame strictly between the 2 START bytes and the 2 CRC
bytes (i.e. LEN ‖ PAYLOAD ‖ SERIAL), the region the builders feed to
`crc_itu`. -/
def frameMiddle (f : List Nat) : List Nat := (f.drop 2).take (f.length - 6)

/-- The two CRC bytes of a frame: the pair immediately before the trailing
`0D 0A`. -/
def frameCrcBytes (f : List Nat) : List Nat := (f.drop (f.length - 4)).take 2

/-- A frame is CRC-consistent when its CRC bytes are the big-endian CRC-16/X25
of everything between START and CRC. -/
def frameCrcOk (f : List Nat) : Prop :=
  frameCrcBytes f = pack16 (crc_itu (frameMiddle f))

/-- The 1-byte length field of a `78 78` frame (byte offset 2). -/
def shortLenField (f : List Nat) : Nat := f.getD 2 0

/-- The 2-byte big-endian length field of a `79 79` frame (offsets 2–3). -/
def extLenField (f : List Nat) : Nat := f.getD 2 0 * 256 + f.getD 3 0

/-- The big-endian 16-bit word at byte offset `i` of a frame. -/
def wordAt (f : List Nat) (i : Nat) : Nat := f.getD i 0 * 256 + f.getD (i + 1) 0

/-! ## Inbound command decoding (gt06/mapper.py) -/

/-- `bytes.decode("ascii", errors="ignore")`: non-ASCII bytes are dropped. -/
def asciiDecode (l : List Nat) : String :=
  String.mk ((l.filter (fun b => b < 128)).map Char.ofNat)

/-- Python `str.isdigit()` on the ASCII strings produced by `asciiDecode`
(empty string is not a digit string). -/
def pyIsDigit (s : String) : Bool :=
  !s.toList.isEmpty && s.toList.all Char.isDigit

/-- Whether one character list begins with another (Python
`str.startswith`). -/
def listBeginsWith : List Char → List Char → Bool
  | _, [] => true
  | [], _ :: _ => false
  | a :: as, b :: bs => a = b && listBeginsWith as bs

/-- Python `str.startswith(p)`. -/
def pyStartsWith (s p : String) : Bool := listBeginsWith s.toList p.toList

/-- Python `s.split(sep)[-1]`: the suffix of `s` after the last occurrence
of `sep`, or `s` itself when `sep` does not occur.  (For a separator that
cannot overlap itself, such as the `"ON,"` used by the source, the
left-to-right non-overlapping scan of `str.split` finds every occurrence,
so its last field is exactly this suffix.) -/
def pySplitLast (s sep : String) : String :=
  let sl := s.toList
  let pl := sep.toList
  let occs := (List.range (sl.length + 1)).filter
    (fun i => listBeginsWith (sl.drop i) pl)
  match occs.getLast? with
  | none => s
  | some i => String.mk (sl.drop (i + pl.length))

/-- Python `s.replace("#", "")`: with a one-character pattern and empty
replacement this deletes every `'#'`. -/
def removeHash (s : String) : String :=
  String.mk (s.toList.filter (fun c => c ≠ '#'))

/-- Python `int(s)` on a string of decimal digits. -/
def digitsToNat (l : List Char) : Nat :=
  l.foldl (fun n c => n * 10 + (c.toNat - 48)) 0

/-- `map_command` (gt06/mapper.py lines 5–39).  `command[4]` is modelled with
`getD` (the source raises `IndexError` on frames shorter than 5 bytes, which
no claim exercises); for `command[4] < 4` the Python slice
`command[9:9+negative]` is empty, as is the `Nat`-subtraction `take` here.
`int(kilometers)` after a successful `isdigit` check equals `digitsToNat`;
the `dev_id` argument is only logged by the source. -/
def map_command (dev_id : String) (command : List Nat) : Option String :=
  let command_length := command.getD 4 0 - 4
  let command_content := (command.drop 9).take command_length
  let command_key := asciiDecode command_content
  if pyStartsWith command_key "MILEAGE" then
    let kilometers := removeHash (pySplitLast command_key "ON,")
    if pyIsDigit kilometers = false then none
    else some ("HODOMETRO:" ++ toString (digitsToNat kilometers.toList * 1000))
  else if command_key = "RELAY,1#" then some "OUTPUT ON"
  else if command_key = "DYD,000000#" then some "OUTPUT ON"
  else if command_key = "RELAY,0#" then some "OUTPUT OFF"
  else if command_key = "HFYD,000000#" then some "OUTPUT OFF"
  else if command_key = "GPRS,GET,LOCATION#" then some "PING"
  else none

/-! ## Python exception model

Raised exceptions are modelled with `Except PyErr`; a function value with a
required-parameter count lets call sites reproduce Python's arity
`TypeError`s. -/

/-- The Python exceptions the embedded paths can raise. -/
inductive PyErr where
  | typeError (msg : String)
  | nameError (msg : String)
deriving DecidableEq, Repr

/-- A Python callable: the number of required positional parameters, and its
behavior when applied to exactly that many arguments. -/
structure PyFunc (α β : Type) where
  params : Nat
  impl : List α → β

/-- Calling a Python function: an argument count different from the required
parameter count raises `TypeError` before the body runs. -/
def pyCall {α β : Type} (f : PyFunc α β) (args : List α) : Except PyErr β :=
  if args.length = f.params then .ok (f.impl args)
  else .error (.typeError "wrong number of positional arguments")

/-! ## Input side: mt02 worker and mapper -/

/-- One per-device iteration of the mt02 worker loop (worker.py lines
31–46): `last_timestamp` is the value stored in the device hash (`none` when
absent or empty, making `not last_processed_timestamp` true), `timestamp`
the incoming record's integer timestamp.  Returns the stored value after the
iteration and whether the record was handed to the processor (the
`threading.Thread(...process_location...)` call). -/
def worker_step (last_timestamp : Option Int) (timestamp : Int) :
    Option Int × Bool :=
  let is_new :=
    match last_timestamp with
    | none => true
    | some last => decide (timestamp > last)
  if is_new then (some timestamp, true) else (last_timestamp, false)

/-- The successive stored `last_timestamp` values along a run of the worker
over a list of incoming timestamps for one device. -/
def worker_states (init : Option Int) : List Int → List (Option Int)
  | [] => []
  | t :: ts => (worker_step init t).1 :: worker_states (worker_step init t).1 ts

/-- `datetime.fromtimestamp` as a function on instants: the resulting
datetime denotes the epoch instant itself (rendering time zone immaterial
here), so it is carried as epoch seconds.  This is also the
`epoch_to_datetime` function of the specification. -/
def datetime_fromtimestamp (t : Int) : Int := t

/-- A Python value as stored in the mapped-data dictionary: the source can
put either an `int` or an un-converted Redis string there. -/
inductive PyVal where
  | int (n : Int)
  | str (s : String)
deriving DecidableEq, Repr

/-- Python `+=` of an `int` onto a value: defined for `int`, a `TypeError`
for `str` (mapper.py line 56 applies it to the raw Redis string). -/
def pyAdd (v : PyVal) (m : Int) : Except PyErr PyVal :=
  match v with
  | .int n => .ok (.int (n + m))
  | .str _ => .error (.typeError "unsupported operand types for +=: str and int")

/-- `math.atan2` over the reals (the quadrant-aware arctangent); signed-zero
distinctions of the float original are immaterial on the nonnegative inputs
used below. -/
noncomputable def atan2 (y x : ℝ) : ℝ :=
  if 0 < x then Real.arctan (y / x)
  else if x < 0 then
    (if 0 ≤ y then Real.arctan (y / x) + Real.pi
     else Real.arctan (y / x) - Real.pi)
  else if 0 < y then Real.pi / 2
  else if y < 0 then -(Real.pi / 2)
  else 0

/-- Python `int()` on a real value: truncation toward zero. -/
noncomputable def pyIntReal (x : ℝ) : Int := if 0 ≤ x then ⌊x⌋ else -⌊-x⌋

/-- `haversine` (input/utils.py lines 3–27): great-circle distance with
earth radius 6371 km, returned as `int((c * r) * 1000)` metres.
`math.radians(x)` is `x·π/180`. -/
noncomputable def haversine (lat1 lon1 lat2 lon2 : ℝ) : Int :=
  let lat1r := lat1 * (Real.pi / 180)
  let lon1r := lon1 * (Real.pi / 180)
  let lat2r := lat2 * (Real.pi / 180)
  let lon2r := lon2 * (Real.pi / 180)
  let dlon := lon2r - lon1r
  let dlat := lat2r - lat1r
  let a := Real.sin (dlat / 2) ^ 2 +
    Real.cos lat1r * Real.cos lat2r * Real.sin (dlon / 2) ^ 2
  let c := 2 * atan2 (Real.sqrt a) (Real.sqrt (1 - a))
  let r := (6371 : ℝ)
  pyIntReal ((c * r) * 1000)

/-- The slice of the per-device Redis hash read by the mt02 mapper.
`hget`/`hmget` return decoded strings or `None`; `last_odometer` is kept as
the string it is (the source never converts it — that matters for C7), while
`last_lat`/`last_lon` are carried as the rationals their `float(...)`
conversion yields (`none` also covers the falsy empty string). -/
structure Mt02DeviceState where
  last_odometer : Option String
  last_lat : Option Rat
  last_lon : Option Rat
deriving DecidableEq, Repr

/-- A vendor location record: `get("timestamp", 0)` already applied;
`lat`/`lng`/`battery` are `none` when the key is absent. -/
structure Mt02Location where
  timestamp : Int
  lat : Option Rat
  lng : Option Rat
  battery : Option Rat
deriving DecidableEq, Repr

/-- Python truthiness of an optional number: `None` and zero are falsy. -/
def truthyR (v : Option Rat) : Bool :=
  match v with
  | none => false
  | some q => decide (q ≠ 0)

/-- The mapped-data dictionary built at mapper.py lines 87–94. -/
structure MappedData where
  timestamp : Int
  latitude : Rat
  longitude : Rat
  satellites : Nat
  gps_odometer : PyVal
  voltage : Rat
deriving DecidableEq, Repr

/-- What one `map_location_data` call produces: the returned dictionary
(`none` for the empty dict of the missing-coordinates branch) and the
`hset` writes it performed. -/
structure MapOutcome where
  result : Option MappedData
  odometer_write : Option PyVal
  voltage_write : Option Rat
deriving DecidableEq, Repr

/-- `map_location_data` (input/mt02/mapper.py lines 11–97) over the device
state it reads from Redis. -/
noncomputable def map_location_data (state : Mt02DeviceState)
    (location : Mt02Location) : Except PyErr MapOutcome :=
  let date_time := datetime_fromtimestamp location.timestamp
  if truthyR location.lat = false || truthyR location.lng = false then
    .ok ⟨none, none, none⟩
  else
    let lat := location.lat.getD 0
    let lng := location.lng.getD 0
    let odometer : PyVal :=
      match state.last_odometer with
      | none => .int 0
      | some s => .str s
    let step :=
      match state.last_lat, state.last_lon with
      | some last_lat, some last_lon =>
          let meters_calculated := haversine lat lng last_lat last_lon
          (pyAdd odometer meters_calculated).map (fun v => (v, some v))
      | _, _ => .ok (odometer, none)
    match step with
    | .error e => .error e
    | .ok (odometer2, odo_write) =>
      let battery_level := location.battery.getD 0
      let battery_based_voltage : Option Rat :=
        if battery_level ≠ 0 ∧ battery_level ≠ -1 then
          some (battery_level * 100 / 3)
        else none
      let voltage :=
        match battery_based_voltage with
        | some v => if v = 0 then 111 / 100 else v
        | none => 111 / 100
      .ok ⟨some ⟨date_time, lat, lng, 6, odometer2, voltage⟩,
           odo_write, battery_based_voltage⟩

/-! ## Session send path and inbound reader (session/output_session.py)

The pieces of `MainServerSession` exercised by the claims, for a session
whose `output_protocol` is `"gt06"`, already connected, with the login
window closed (`_is_gt06_login_step = False`; the 100 ms busy-wait of the
open window is a real-time construct outside this embedding).  Socket writes
are abstracted by a `write_fails` flag; what matters to the claims is which
exceptions are raised, whether `disconnect()` runs, and what reaches the
wire. -/

/-- What a call into the session produced: the exception that escaped to the
caller (if any), whether `disconnect()` was invoked, and the payloads
written to the socket, in order. -/
structure SendOutcome where
  raised : Option PyErr
  disconnected : Bool
  sent : List (List Nat)
deriving DecidableEq, Repr

/-- The helper `def __get_device_voltage(self)` nested inside
`_handle_protocol_specific_behaviors` (lines 249–260): one required
positional parameter (`self`), reading the stored voltage with fallback
`1.11`. -/
def get_device_voltage_fn (stored_voltage : Option Rat) : PyFunc Unit Rat :=
  ⟨1, fun _ => stored_voltage.getD (111 / 100)⟩

/-- `_handle_protocol_specific_behaviors(packet_type)` (lines 243–294) for a
gt06 session outside the login window.  For `packet_type == "location"` the
source calls `__get_device_voltage()` with zero arguments (line 283) — name
mangling resolves the identifier to the local one-parameter function, so the
call raises `TypeError` before the `try` at line 287 is ever entered (had it
survived, `voltage_packet_builder(self.device_id, voltage=..., serial_number=0)`
would raise another `TypeError`: `build_voltage_info_packet` accepts no
`voltage` keyword, and its body's first log line references names not in
scope).  Only the `sock.sendall(voltage_packet)` inside the `try` is
converted into `disconnect()`. -/
def handle_protocol_specific_behaviors (stored_voltage : Option Rat)
    (packet_type : String) : SendOutcome :=
  if packet_type = "location" then
    match pyCall (get_device_voltage_fn stored_voltage) [] with
    | .error e => ⟨some e, false, []⟩
    | .ok _ => ⟨none, false, []⟩
  else ⟨none, false, []⟩

/-- `_send_data(data, ..., packet_type)` (lines 296–333) for a connected
gt06 session with an unchanged output protocol: run the protocol-specific
pre-send step (line 321, not wrapped in any `try` — an exception there
escapes the method inside the `with self.lock` block), then
`sock.sendall(data)` whose failure alone is caught and turned into
`disconnect()`. -/
def send_data (stored_voltage : Option Rat) (packet_type : String)
    (data : List Nat) (write_fails : Bool) : SendOutcome :=
  let pre := handle_protocol_specific_behaviors stored_voltage packet_type
  match pre.raised with
  | some e => ⟨some e, pre.disconnected, pre.sent⟩
  | none =>
    if write_fails then ⟨none, true, pre.sent⟩
    else ⟨none, pre.disconnected, pre.sent ++ [data]⟩

/-- An argument of a Python call in the reader path. -/
inductive PyArg where
  | str (s : String)
  | bytes (b : List Nat)
deriving DecidableEq, Repr

/-- `map_command` as the callable stored in
`output_mappers.OUTPUT_COMMAND_MAPPERS["gt06"]`: two required positional
parameters (`dev_id`, `command`). -/
def map_command_py : PyFunc PyArg (Option String) :=
  ⟨2, fun args =>
    match args with
    | [.str d, .bytes c] => map_command d c
    | _ => none⟩

/-- What one iteration of the inbound reader produced. -/
structure ReaderOutcome where
  disconnected : Bool
  dispatched : Option String
  exits : Bool
deriving DecidableEq, Repr

/-- One iteration of `_listen_to_server` (lines 135–201) on a gt06 session
after `recv` returned `data`: empty read → disconnect and return; data
during the login window → clear the flag and continue; otherwise dispatch
through the command mapper — the source calls `mapper_func(data)` with a
single argument (line 166), and any exception lands in the
`except Exception` handler (lines 198–201), which disconnects and
returns. -/
def listen_step (login_pending : Bool) (data : List Nat) : ReaderOutcome :=
  if data = [] then ⟨true, none, true⟩
  else if login_pending then ⟨false, none, false⟩
  else
    match pyCall map_command_py [.bytes data] with
    | .error _ => ⟨true, none, true⟩
    | .ok none => ⟨false, none, false⟩
    | .ok (some c) => ⟨false, some c, false⟩

/-! ## Spec-side definitions (for refinement comparisons only)

These two follow the specification's words, not the source, and exist to be
compared against the source-derived definitions above. -/

/-- Modelled from the spec: `round(v*100)` — §3 says the voltage travels
"as `round(v*100)` into u16"; nearest-integer rounding. -/
def spec_round (q : Rat) : Int := round q

/-- Modelled from the spec: §4.3 step 1, "Construct UTC instant =
`epoch_to_datetime(timestamp) + 3 hours`". -/
def spec_mapped_timestamp (t : Int) : Int := datetime_fromtimestamp t + 3 * 3600

/-- A sample location report used to instantiate universally quantified
theorems at a concrete input. -/
def samplePacketData : PacketData :=
  ⟨2025, 3, 4, 10, 20, 30, 7, -47/2, -93/2, 0, 0, false, true, 12345, 37/10⟩

/-- A sample device state with stored coordinates and a stored (string)
odometer, as Redis returns them. -/
def sampleState : Mt02DeviceState :=
  ⟨some "100", some (-47/2), some (-93/2)⟩

/-- A sample vendor record with valid coordinates. -/
def sampleLocation : Mt02Location :=
  ⟨1700000000, some (-47/2 + 1/1000), some (-93/2), some 2⟩

/-- Ordering between successive stored `last_timestamp` values: whenever a
value is stored before, a value at least as large is stored after. -/
def optTimestampLe (a b : Option Int) : Prop :=
  ∀ x, a = some x → ∃ y, b = some y ∧ x ≤ y

/-!
# Theorems

Helper lemmas first, then one theorem per claim (with witnesses and
counterexamples where the claim's status calls for them).
-/

@[simp] theorem pack8_length (n : Nat) : (pack8 n).length = 1 := rfl

@[simp] theorem pack16_length (n : Nat) : (pack16 n).length = 2 := rfl

@[simp] theorem pack32_length (n : Nat) : (pack32 n).length = 4 := rfl

@[simp] theorem pack64_length (n : Nat) : (pack64 n).length = 8 := rfl

theorem crcBitStep_lt {c : Nat} (h : c < 65536) : crcBitStep c < 65536 := by
  unfold crcBitStep
  have h1 : c / 2 < 2 ^ 16 := lt_of_le_of_lt (Nat.div_le_self _ _) h
  split
  · exact Nat.xor_lt_two_pow h1 (by norm_num)
  · exact h1

theorem crcByteStep_lt {c : Nat} (b : Nat) (h : c < 65536) :
    crcByteStep c b < 65536 := by
  unfold crcByteStep
  have h0 : c ^^^ b % 256 < 65536 := by
    have hb : b % 256 < 2 ^ 16 :=
      lt_of_lt_of_le (Nat.mod_lt _ (by norm_num)) (by norm_num)
    exact Nat.xor_lt_two_pow h hb
  exact crcBitStep_lt (crcBitStep_lt (crcBitStep_lt (crcBitStep_lt
    (crcBitStep_lt (crcBitStep_lt (crcBitStep_lt (crcBitStep_lt h0)))))))

theorem foldl_crcByteStep_lt :
    ∀ (data : List Nat) (c : Nat), c < 65536 →
      data.foldl crcByteStep c < 65536 := by
  intro data
  induction data with
  | nil => intro c hc; simpa using hc
  | cons b bs ih => intro c hc; simpa using ih _ (crcByteStep_lt b hc)

/-- The CRC fits the 16-bit field the builders pack it into. -/
theorem crc_itu_lt (data : List Nat) : crc_itu data < 65536 := by
  unfold crc_itu
  have hx : data.foldl crcByteStep 0xFFFF < 2 ^ 16 := by
    simpa using foldl_crcByteStep_lt data 0xFFFF (by norm_num)
  have hy : (0xFFFF : Nat) < 2 ^ 16 := by norm_num
  simpa using Nat.xor_lt_two_pow hx hy

theorem frame_parts (a b d e : Nat) (mid : List Nat) (c : Nat) :
    frameMiddle ([a, b] ++ mid ++ pack16 c ++ [d, e]) = mid ∧
    frameCrcBytes ([a, b] ++ mid ++ pack16 c ++ [d, e]) = pack16 c := by
  have hlen : ([a, b] ++ mid ++ pack16 c ++ [d, e]).length = mid.length + 6 := by
    simp [List.length_append]
  have hdrop2 : ([a, b] ++ mid ++ pack16 c ++ [d, e]).drop 2 =
      mid ++ (pack16 c ++ [d, e]) := by
    simp
  constructor
  · rw [frameMiddle, hlen, hdrop2]
    have h6 : mid.length + 6 - 6 = mid.length := by omega
    rw [h6, List.take_left]
  · rw [frameCrcBytes, hlen]
    have h4 : mid.length + 6 - 4 = 2 + mid.length := by omega
    rw [h4, ← List.drop_drop, hdrop2, List.drop_left]
    rw [show (2 : Nat) = (pack16 c).length from rfl, List.take_left]

/-- Any list of the builders' common shape — START, middle, the CRC of that
middle, `0D 0A` — is CRC-consistent. -/
theorem frameCrcOk_build (a b d e : Nat) (mid : List Nat) :
    frameCrcOk ([a, b] ++ mid ++ pack16 (crc_itu mid) ++ [d, e]) := by
  have h := frame_parts a b d e mid (crc_itu mid)
  rw [frameCrcOk, h.1, h.2]

theorem location_frameCrcOk (pd : PacketData) (pn sn : Nat) :
    frameCrcOk (build_location_packet pd pn sn) := by
  unfold build_location_packet
  exact frameCrcOk_build _ _ _ _ _

theorem heartbeat_frameCrcOk : frameCrcOk build_heartbeat_packet := by
  unfold build_heartbeat_packet
  exact frameCrcOk_build _ _ _ _ _

theorem voltage_frameCrcOk (v : Rat) (sn : Nat) :
    frameCrcOk (build_voltage_info_packet v sn) := by
  unfold build_voltage_info_packet
  exact frameCrcOk_build _ _ _ _ _

theorem login_frameCrcOk (dev : String) (sn : Nat) :
    frameCrcOk (build_login_packet dev sn) := by
  unfold build_login_packet
  exact frameCrcOk_build _ _ _ _ _

theorem location_content_body_length (pd : PacketData) (pn : Nat) :
    (location_content_body pd pn).length =
      18 + (if pn = 0x12 then 8 else if pn = 0x22 then 15 else
            if pn = 0x32 then 24 else if pn = 0xA0 then 25 else 0) := by
  simp only [location_content_body]
  split_ifs <;> simp [List.length_append]

theorem location_length_relation (pd : PacketData) (pn sn : Nat) :
    shortLenField (build_location_packet pd pn sn) + 3 =
      (build_location_packet pd pn sn).length - 2 := by
  have hL := location_content_body_length pd pn
  have hLle : (location_content_body pd pn).length ≤ 43 := by
    rw [hL]; split_ifs <;> norm_num
  simp only [build_location_packet, shortLenField, pack8, pack16,
    List.cons_append, List.nil_append, List.append_assoc]
  simp [List.length_append]
  omega

theorem voltage_length_relation (v : Rat) (sn : Nat) :
    extLenField (build_voltage_info_packet v sn) + 4 =
      (build_voltage_info_packet v sn).length - 2 := by
  simp only [build_voltage_info_packet, extLenField, pack8, pack16,
    List.cons_append, List.nil_append, List.append_assoc]
  simp [List.length_append]

theorem bcdPairs_length : ∀ (l : List Char), (bcdPairs l).length = l.length / 2
  | [] => by simp [bcdPairs]
  | [_] => by simp [bcdPairs]
  | _ :: _ :: rest => by
      simp [bcdPairs, bcdPairs_length rest]
      omega

theorem login_bcd_length (dev : String)
    (h : dev_id_valid (get_output_dev_id_gt06 dev) = true) :
    (dev_id_to_bcd (get_output_dev_id_gt06 dev)).length = 8 := by
  have hlen : (get_output_dev_id_gt06 dev).length = 15 := by
    simp [dev_id_valid] at h
    exact h.1
  have hcons : ("0" ++ get_output_dev_id_gt06 dev).toList =
      '0' :: (get_output_dev_id_gt06 dev).toList := rfl
  have h15 : (get_output_dev_id_gt06 dev).toList.length = 15 := hlen
  rw [dev_id_to_bcd, bcdPairs_length, hcons, List.length_cons, h15]

theorem login_length_relation (dev : String) (sn : Nat)
    (h : dev_id_valid (get_output_dev_id_gt06 dev) = true) :
    shortLenField (build_login_packet dev sn) + 3 =
      (build_login_packet dev sn).length - 2 := by
  have hbcd := login_bcd_length dev h
  simp only [build_login_packet, shortLenField, pack8, pack16,
    List.cons_append, List.nil_append, List.append_assoc]
  simp [List.length_append, hbcd]

set_option maxRecDepth 16000

/-- **C1** (code_bug in the source): the heartbeat builder really returns
`78 78 08 13 47 06 04 00 02 00 00 CRC 0D 0A`: its length byte is `0x08` —
`len(payload)` without the two CRC bytes, unlike every other builder in the
file and unlike the spec's framing rule — so the claimed frame with length
byte `0x0A` (and the CRC computed over it) is not produced.  The payload
bytes, `terminal_info = 0x47` included, are as claimed. -/
theorem C1_heartbeat_frame :
    build_heartbeat_packet =
      [0x78, 0x78, 0x08, 0x13, 0x47, 0x06, 0x04, 0x00, 0x02, 0x00, 0x00] ++
        pack16 (crc_itu [0x08, 0x13, 0x47, 0x06, 0x04, 0x00, 0x02, 0x00, 0x00]) ++
        [0x0D, 0x0A] ∧
    shortLenField build_heartbeat_packet = 0x08 ∧
    build_heartbeat_packet ≠
      [0x78, 0x78, 0x0A, 0x13, 0x47, 0x06, 0x04, 0x00, 0x02, 0x00, 0x00] ++
        pack16 (crc_itu [0x0A, 0x13, 0x47, 0x06, 0x04, 0x00, 0x02, 0x00, 0x00]) ++
        [0x0D, 0x0A] := by
  refine ⟨by decide, by decide, by decide⟩

/-- **C2 counterexample**: for the extended (`79 79`) voltage-info frame the
claimed relation `length_field + 5 = total − 2` fails (the length field is 8,
the frame 14 bytes), and for a concrete `78 78` location frame the claimed
`length_field + 4 = total − 2` fails likewise. -/
theorem C2_counterexample :
    extLenField (build_voltage_info_packet 0 0) + 5 ≠
      (build_voltage_info_packet 0 0).length - 2 ∧
    shortLenField (build_location_packet samplePacketData 0xA0 0) + 4 ≠
      (build_location_packet samplePacketData 0xA0 0).length - 2 := by
  refine ⟨by decide, ?_⟩
  have h3 := location_length_relation samplePacketData 0xA0 0
  omega

/-- **C2 amended**: the true length relations of the four builders.  For the
short (`78 78`) location and login frames, `length_field + 3` equals the
frame length without the trailing `0D 0A`; for the extended (`79 79`)
voltage-info frame it is `length_field + 4`; the heartbeat frame satisfies
`length_field + 5` instead, because its length field omits the two CRC bytes
(the C1 defect). -/
theorem C2_length_relations :
    (∀ (pd : PacketData) (pn sn : Nat),
      shortLenField (build_location_packet pd pn sn) + 3 =
        (build_location_packet pd pn sn).length - 2) ∧
    shortLenField build_heartbeat_packet + 5 =
      build_heartbeat_packet.length - 2 ∧
    (∀ (v : Rat) (sn : Nat),
      extLenField (build_voltage_info_packet v sn) + 4 =
        (build_voltage_info_packet v sn).length - 2) ∧
    (∀ (dev : String) (sn : Nat),
      dev_id_valid (get_output_dev_id_gt06 dev) = true →
      shortLenField (build_login_packet dev sn) + 3 =
        (build_login_packet dev sn).length - 2) :=
  ⟨location_length_relation, by decide, voltage_length_relation,
   login_length_relation⟩

/-- Witness for C2: the length relations at concrete frames, the login
validity hypothesis discharged on a 15-digit identifier. -/
theorem C2_length_relations_witness :
    shortLenField (build_location_packet samplePacketData 0x22 1) + 3 =
      (build_location_packet samplePacketData 0x22 1).length - 2 ∧
    extLenField (build_voltage_info_packet (37/10) 4) + 4 =
      (build_voltage_info_packet (37/10) 4).length - 2 ∧
    dev_id_valid (get_output_dev_id_gt06 "123456789012345") = true ∧
    shortLenField (build_login_packet "123456789012345" 0) + 3 =
      (build_login_packet "123456789012345" 0).length - 2 :=
  ⟨C2_length_relations.1 samplePacketData 0x22 1,
   C2_length_relations.2.2.1 (37/10) 4,
   by decide,
   C2_length_relations.2.2.2 "123456789012345" 0 (by decide)⟩

/-- **C3** (confirmed): every frame any of the four builders produces is
CRC-consistent — the two bytes before the trailing `0D 0A` are the
big-endian CRC-16/X25 (poly `0x1021`, init `0xFFFF`, reflected input and
output, final XOR `0xFFFF`) of everything strictly between the START bytes
and the CRC, i.e. LEN ‖ PAYLOAD ‖ SERIAL. -/
theorem C3_crc_consistency :
    (∀ (pd : PacketData) (pn sn : Nat),
      frameCrcOk (build_location_packet pd pn sn)) ∧
    frameCrcOk build_heartbeat_packet ∧
    (∀ (v : Rat) (sn : Nat), frameCrcOk (build_voltage_info_packet v sn)) ∧
    (∀ (dev : String) (sn : Nat), frameCrcOk (build_login_packet dev sn)) :=
  ⟨location_frameCrcOk, heartbeat_frameCrcOk, voltage_frameCrcOk,
   login_frameCrcOk⟩

/-- **C4 counterexample**: on the claim's own frame
`78 78 0C 80 08 "RELAY,1#" 0001 xxxx 0D 0A` the decoder returns no command,
not `"OUTPUT ON"`: the byte at offset 4 is `0x08` (not the frame length
field `0x0C`), so it slices `0x08 − 4 = 4` bytes from offset 9 — `"Y,1#"` —
which maps to nothing. -/
theorem C4_counterexample :
    map_command "247700242811219"
      [0x78, 0x78, 0x0C, 0x80, 0x08, 0x52, 0x45, 0x4C, 0x41, 0x59, 0x2C,
       0x31, 0x23, 0x00, 0x01, 0x00, 0x00, 0x0D, 0x0A] = none ∧
    map_command "247700242811219"
      [0x78, 0x78, 0x0C, 0x80, 0x08, 0x52, 0x45, 0x4C, 0x41, 0x59, 0x2C,
       0x31, 0x23, 0x00, 0x01, 0x00, 0x00, 0x0D, 0x0A] ≠
      some "OUTPUT ON" := by
  refine ⟨by decide, by decide⟩

/-- **C4 amended**: the decoder reads its length from the byte at offset 4
(the command-size byte, which in a standard GT06 `0x80` frame counts the
4-byte server flag plus the text), not from the frame length field: the
result depends on the frame only through that byte and the `m − 4` bytes
from offset 9.  On the frame that does carry the 4-byte server flag,
`78 78 12 80 0C 00 00 00 00 "RELAY,1#" 0001 xxxx 0D 0A`, it returns
`"OUTPUT ON"`. -/
theorem C4_decoder :
    (∀ (d : String) (f g : List Nat) (m : Nat),
      f.getD 4 0 = m → g.getD 4 0 = m →
      (f.drop 9).take (m - 4) = (g.drop 9).take (m - 4) →
      map_command d f = map_command d g) ∧
    map_command "247700242811219"
      [0x78, 0x78, 0x12, 0x80, 0x0C, 0x00, 0x00, 0x00, 0x00, 0x52, 0x45,
       0x4C, 0x41, 0x59, 0x2C, 0x31, 0x23, 0x00, 0x01, 0x00, 0x00, 0x0D,
       0x0A] = some "OUTPUT ON" := by
  constructor
  · intro d f g m hf hg hslice
    simp only [map_command, hf, hg, hslice]
  · decide

/-- Witness for C4: the dependence statement instantiated at concrete
frames — the server-flagged `RELAY,1#` frame against itself with a changed
frame-length byte (offset 2), hypotheses discharged by computation. -/
theorem C4_decoder_witness :
    map_command "x"
      [0x78, 0x78, 0x12, 0x80, 0x0C, 0x00, 0x00, 0x00, 0x00, 0x52, 0x45,
       0x4C, 0x41, 0x59, 0x2C, 0x31, 0x23, 0x00, 0x01, 0x00, 0x00, 0x0D,
       0x0A] =
    map_command "x"
      [0x78, 0x78, 0xFF, 0x80, 0x0C, 0x00, 0x00, 0x00, 0x00, 0x52, 0x45,
       0x4C, 0x41, 0x59, 0x2C, 0x31, 0x23, 0x00, 0x01, 0x00, 0x00, 0x0D,
       0x0A] :=
  C4_decoder.1 "x" _ _ 0x0C (by decide) (by decide) (by decide)

/-- **C5** (code_bug in the source): on a connected gt06 session outside the
login window, every location send raises — the pre-send voltage step calls
the one-parameter nested helper `__get_device_voltage` with zero arguments,
outside the `try` that guards only `sendall` — and the `TypeError` escapes
`_send_data` through the session mutex: `disconnect()` is not invoked and
nothing (neither voltage-info nor location frame) reaches the wire, for
every stored voltage, payload and socket condition. -/
theorem C5_location_send_raises :
    ∀ (stored_voltage : Option Rat) (data : List Nat) (write_fails : Bool),
      send_data stored_voltage "location" data write_fails =
        ⟨some (.typeError "wrong number of positional arguments"),
         false, []⟩ := by
  intro stored_voltage data write_fails
  rfl

/-- **C10** (confirmed): for every inbound frame received outside the login
window, the reader's dispatch step calls the two-parameter command mapper
with a single argument; the resulting `TypeError` is caught by the
catch-all handler, which disconnects and exits the loop — and no iteration
of the reader, in any state, ever dispatches a universal command. -/
theorem C10_reader_dispatch_crash :
    (∀ (data : List Nat), data ≠ [] →
      listen_step false data = ⟨true, none, true⟩) ∧
    (∀ (login_pending : Bool) (data : List Nat),
      (listen_step login_pending data).dispatched = none) := by
  constructor
  · intro data hne
    simp [listen_step, pyCall, map_command_py, hne]
  · intro lp data
    unfold listen_step
    split_ifs <;> simp [pyCall, map_command_py]

/-- Witness for C10: a concrete nonempty inbound frame outside the login
window disconnects without dispatch, and a login-window read dispatches
nothing. -/
theorem C10_reader_dispatch_crash_witness :
    listen_step false [0x78, 0x78] = ⟨true, none, true⟩ ∧
    (listen_step true [0x01]).dispatched = none :=
  ⟨C10_reader_dispatch_crash.1 [0x78, 0x78] (by decide),
   C10_reader_dispatch_crash.2 true [0x01]⟩

theorem worker_step_mono (s : Option Int) (t : Int) :
    optTimestampLe s (worker_step s t).1 := by
  intro x hx
  unfold worker_step
  cases s with
  | none => simp at hx
  | some last =>
    cases hx
    by_cases h : t > x
    · exact ⟨t, by simp [h], le_of_lt h⟩
    · exact ⟨x, by simp [h], le_refl x⟩

/-- **C6** (confirmed): along every run of the worker over a sequence of
vendor reports, the stored `last_timestamp` never decreases; and a report
whose timestamp is ≤ the stored value leaves the store unchanged and is not
forwarded to the processor. -/
theorem C6_timestamp_dedupe :
    (∀ (init : Option Int) (tss : List Int),
      List.Chain' optTimestampLe (init :: worker_states init tss)) ∧
    (∀ (last ts : Int), ts ≤ last →
      worker_step (some last) ts = (some last, false)) := by
  constructor
  · intro init tss
    induction tss generalizing init with
    | nil => simp [worker_states]
    | cons t ts ih =>
      rw [worker_states]
      exact List.Chain'.cons (worker_step_mono init t) (ih _)
  · intro last ts h
    simp [worker_step, not_lt.mpr h]

/-- Witness for C6: a concrete run, and a duplicate timestamp dropped
without a forward. -/
theorem C6_timestamp_dedupe_witness :
    List.Chain' optTimestampLe
      (some 5 :: worker_states (some 5) [7, 7, 3, 9]) ∧
    worker_step (some 5) 3 = (some 5, false) :=
  ⟨C6_timestamp_dedupe.1 (some 5) [7, 7, 3, 9],
   C6_timestamp_dedupe.2 5 3 (by decide)⟩

/-- **C7** (code_bug in the source): the odometer accrual path is broken.
With stored coordinates and a stored odometer — which Redis returns as a
string the source never converts — `odometer += meters` raises `TypeError`
and nothing is written back, so the stored odometer does not increase by the
haversine distance (first conjunct).  The accrual only happens in the state
where the stored odometer is absent: the increment is then exactly the
truncated haversine metres at earth radius 6371 km (second conjunct).  With
no stored coordinates nothing is added and no odometer is written — a zero
increment — and the stored string leaks unconverted into the emitted
dictionary (third conjunct). -/
theorem C7_odometer_accrual :
    map_location_data sampleState sampleLocation =
      .error (.typeError "unsupported operand types for +=: str and int") ∧
    map_location_data ⟨none, some (-47/2), some (-93/2)⟩ sampleLocation =
      .ok ⟨some ⟨1700000000, -47/2 + 1/1000, -93/2, 6,
             .int (0 + haversine ((-47/2 + 1/1000 : Rat) : ℝ)
               ((-93/2 : Rat) : ℝ) ((-47/2 : Rat) : ℝ) ((-93/2 : Rat) : ℝ)),
             2 * 100 / 3⟩,
           some (.int (0 + haversine ((-47/2 + 1/1000 : Rat) : ℝ)
             ((-93/2 : Rat) : ℝ) ((-47/2 : Rat) : ℝ) ((-93/2 : Rat) : ℝ))),
           some (2 * 100 / 3)⟩ ∧
    map_location_data ⟨some "100", none, none⟩ sampleLocation =
      .ok ⟨some ⟨1700000000, -47/2 + 1/1000, -93/2, 6, .str "100",
             2 * 100 / 3⟩,
           none, some (2 * 100 / 3)⟩ := by
  refine ⟨?_, ?_, ?_⟩
  · unfold map_location_data
    norm_num [sampleState, sampleLocation, truthyR, pyAdd, Except.map,
      datetime_fromtimestamp]
  · unfold map_location_data
    norm_num [sampleLocation, truthyR, pyAdd, Except.map,
      datetime_fromtimestamp]
  · unfold map_location_data
    norm_num [sampleLocation, truthyR, pyAdd, Except.map,
      datetime_fromtimestamp]

/-- **C8 counterexample**: on a concrete vendor record the mapper's emitted
timestamp is `epoch_to_datetime(timestamp)` itself — the claimed 3-hour
shift is absent (the source's `relativedelta` import is never used). -/
theorem C8_counterexample :
    map_location_data ⟨none, none, none⟩ ⟨1700000000, some 1, some 1, none⟩ =
      .ok ⟨some ⟨1700000000, 1, 1, 6, .int 0, 111/100⟩, none, none⟩ ∧
    (1700000000 : Int) ≠ spec_mapped_timestamp 1700000000 := by
  constructor
  · unfold map_location_data
    norm_num [truthyR, datetime_fromtimestamp]
  · decide

/-- **C8 amended**: whenever the mapper emits a report, its timestamp equals
`epoch_to_datetime(vendor timestamp)` with no offset added. -/
theorem C8_no_shift :
    ∀ (state : Mt02DeviceState) (location : Mt02Location) (out : MapOutcome)
      (md : MappedData),
      map_location_data state location = .ok out →
      out.result = some md →
      md.timestamp = datetime_fromtimestamp location.timestamp := by
  intro state location out md h1 h2
  obtain ⟨odo, slat, slon⟩ := state
  unfold map_location_data at h1
  rcases odo with _ | s <;> rcases slat with _ | la <;> rcases slon with _ | lo <;>
    simp only [Except.map, pyAdd] at h1 <;> split at h1 <;> try cases h1
  all_goals simp_all
  all_goals (subst h2; rfl)

/-- Witness for C8: the amended statement applied at a concrete record. -/
theorem C8_no_shift_witness :
    (⟨1700000000, 1, 1, 6, .int 0, 111/100⟩ : MappedData).timestamp =
      datetime_fromtimestamp 1700000000 :=
  C8_no_shift ⟨none, none, none⟩ ⟨1700000000, some 1, some 1, none⟩
    ⟨some ⟨1700000000, 1, 1, 6, .int 0, 111/100⟩, none, none⟩
    ⟨1700000000, 1, 1, 6, .int 0, 111/100⟩
    (by simp [map_location_data, truthyR, datetime_fromtimestamp]) rfl

/-- The `content_body` of the configured default protocol `0xA0`, written
out. -/
theorem location_content_body_A0 (pd : PacketData) :
    location_content_body pd 0xA0 =
      pack8 (pd.year % 100) ++ pack8 pd.month ++ pack8 pd.day ++
      pack8 pd.hour ++ pack8 pd.minute ++ pack8 pd.second ++
      pack8 (0xC0 ||| min 15 pd.satellites) ++
      pack32 (pyInt (|pd.latitude| * 1800000)).toNat ++
      pack32 (pyInt (|pd.longitude| * 1800000)).toNat ++
      pack8 pd.speed_kmh ++
      pack16 (((if pd.gps_fixed then 1 else 0) <<< 12) |||
        ((if pd.longitude < 0 then 1 else 0) <<< 11) |||
        ((if 0 ≤ pd.latitude then 1 else 0) <<< 10) |||
        (pd.direction &&& 0x03FF)) ++
      pack16 0 ++ pack16 0 ++ pack32 0 ++ pack64 0 ++
      pack8 (if pd.acc_status then 1 else 0) ++ [0x00] ++ [0x00] ++
      pack32 pd.gps_odometer ++ pack16 (pyInt (pd.voltage * 100)).toNat := by
  simp [location_content_body]

/-- **C9 counterexample**: at `v = 0.019` the 16-bit voltage field on the
wire is `1` — `int(v*100)` truncates — while `round(v*100) = 2`; the claim
fails both in the `0x94` voltage-info frame (offset 6) and in the `0xA0`
location frame (offset 45). -/
theorem C9_counterexample :
    ((wordAt (build_voltage_info_packet (19/1000) 0) 6 : Nat) : Int) ≠
      spec_round ((19/1000 : Rat) * 100) ∧
    ((wordAt (build_location_packet
        { samplePacketData with voltage := 19/1000 } 0xA0 0) 45 : Nat) : Int) ≠
      spec_round ((19/1000 : Rat) * 100) := by
  refine ⟨by with_unfolding_all decide, by with_unfolding_all decide⟩

/-- **C9 amended**: for nonnegative, in-range voltages the 16-bit field on
the wire — offset 6 of the `0x94` voltage-info frame and offset 45 of the
`0xA0` location frame — is `int(v*100)`, the truncation toward zero of
`v·100`, not its rounding. -/
theorem C9_voltage_truncation :
    ∀ (v : Rat) (pd : PacketData) (sn : Nat),
      0 ≤ v → (pyInt (v * 100)).toNat < 65536 →
      0 ≤ pd.voltage → (pyInt (pd.voltage * 100)).toNat < 65536 →
      wordAt (build_voltage_info_packet v sn) 6 = (pyInt (v * 100)).toNat ∧
      wordAt (build_location_packet pd 0xA0 sn) 45 =
        (pyInt (pd.voltage * 100)).toNat := by
  intro v pd sn hv hvb hpv hpb
  constructor
  · simp only [build_voltage_info_packet, wordAt, pack8, pack16,
      List.cons_append, List.nil_append, List.append_assoc,
      List.length_append]
    simp [List.getD]
    omega
  · simp only [build_location_packet, location_content_body_A0, wordAt,
      pack8, pack16, pack32, pack64, List.cons_append, List.nil_append,
      List.append_assoc, List.length_append, List.length_cons,
      List.length_nil]
    simp [List.getD]
    omega

/-- Witness for C9: the truncated encoding at concrete voltages, hypotheses
discharged by computation. -/
theorem C9_voltage_truncation_witness :
    wordAt (build_voltage_info_packet (37/10) 0) 6 =
      (pyInt ((37/10 : Rat) * 100)).toNat ∧
    wordAt (build_location_packet samplePacketData 0xA0 0) 45 =
      (pyInt (samplePacketData.voltage * 100)).toNat :=
  C9_voltage_truncation (37/10) samplePacketData 0
    (by with_unfolding_all decide) (by with_unfolding_all decide)
    (by with_unfolding_all decide) (by with_unfolding_all decide)
